import Mathlib

/-!
Shallow embedding of the dfox terminal database client core: the
connection lifecycle manager and query execution (src/dfox-tui/src/db/mysql.rs)
and the screen/focus navigation handlers (src/dfox-tui/src/ui/handlers.rs).

External collaborators (the wire protocol behind `MySqlClient::connect` and
the `DbClient` trait methods, the terminal renderer) are modelled as oracles:
a `DbClient` record of result-valued functions and a `driver` function from
connection strings to connect outcomes.  Time is abstracted to natural-number
durations so that the `tokio::time::timeout(Duration::from_secs(3), ...)` in
`connect_to_default_db` becomes a comparison against 3.
-/

/-- `serde_json::Value`, the structured shape query results arrive in. -/
inductive JsonValue where
  | null : JsonValue
  | bool (b : Bool) : JsonValue
  | num (n : Int) : JsonValue
  | str (s : String) : JsonValue
  | arr (elems : List JsonValue) : JsonValue
  | obj (fields : List (String × JsonValue)) : JsonValue

/-- A normalized result row: `HashMap<String, serde_json::Value>`, modelled as
an association list keyed by column name. -/
def Row : Type := List (String × JsonValue)

/-- One column of a table schema (`dfox_core::models::schema`). -/
structure Column where
  name : String
  data_type : String
  is_nullable : Bool
  default : Option String
deriving DecidableEq

/-- `TableSchema`: table name plus its columns. -/
structure TableSchema where
  table_name : String
  columns : List Column
deriving DecidableEq

/-- The backend capability (`Box<dyn DbClient + Send + Sync>`): an oracle
recording what each backend call would return on the current connection. -/
structure DbClient where
  queryResult : String → Except String (List JsonValue)
  execResult : String → Except String Unit
  listDatabasesResult : Except String (List String)
  listTablesResult : Except String (List String)
  describeResult : String → Except String TableSchema

/-- Which connection-input field is active (`components::InputField`). -/
inductive InputField where
  | Username : InputField
  | Password : InputField
  | Hostname : InputField
deriving DecidableEq

/-- The transient connection form (`components::ConnectionInput`). -/
structure ConnectionInput where
  username : String
  password : String
  hostname : String
  port : String
  current_field : InputField

/-- The screen the user is on (`components::ScreenState`). -/
inductive ScreenState where
  | DbTypeSelection : ScreenState
  | ConnectionInput : ScreenState
  | DatabaseSelection : ScreenState
  | TableView : ScreenState
deriving DecidableEq

/-- The focused pane inside the table view (`components::FocusedWidget`). -/
inductive FocusedWidget where
  | TablesList : FocusedWidget
  | SqlEditor : FocusedWidget
  | QueryResult : FocusedWidget
deriving DecidableEq

/-- The session state `DatabaseClientUI`.  `connections` is the Connection
Slot (`db_manager.connections` behind its mutex); the event loop is
sequential, so the lock-guarded vector is modelled as a plain list field. -/
structure DatabaseClientUI where
  connections : List DbClient
  connection_input : ConnectionInput
  connection_error_message : Option String
  databases : List String
  tables : List String
  selected_db_type : Nat
  selected_table : Nat
  expanded_table : Option Nat
  table_schemas : List (String × TableSchema)
  sql_query_result : List Row
  sql_editor_content : String
  current_screen : ScreenState
  current_focus : FocusedWidget

/-- What one call to `MySqlClient::connect(conn_string)` would do: how many
time units it takes to resolve, and the value it resolves to. -/
structure ConnectOutcome where
  duration : Nat
  result : Except String DbClient

/-- The `format!("mysql://{}:{}@{}:{}/{}", ...)` connection string. -/
def mysql_connection_string (ci : ConnectionInput) (db_name : String) : String :=
  "mysql://" ++ ci.username ++ ":" ++ ci.password ++ "@" ++ ci.hostname ++ ":"
    ++ ci.port ++ "/" ++ db_name

/-- `connect_to_selected_db` (mysql.rs lines 105-126): clears the Connection
Slot, builds the connection string for `db_name`, then attempts the connect
with no timeout; the `?` on a failed connect returns with the slot already
cleared. -/
def connect_to_selected_db (driver : String → ConnectOutcome)
    (ui : DatabaseClientUI) (db_name : String) :
    DatabaseClientUI × Except String Unit :=
  let cleared := { ui with connections := [] }
  let cs := mysql_connection_string cleared.connection_input db_name
  match (driver cs).result with
  | Except.ok client =>
      ({ cleared with connections := cleared.connections ++ [client] }, Except.ok ())
  | Except.error e => (cleared, Except.error e)

/-- `connect_to_default_db` (mysql.rs lines 128-160): builds the connection
string for the fixed database `mysql` and races the connect against a
3-second timeout (`3 < duration` models the future not resolving in time).
On success the client is pushed onto the slot (with no prior clear); on
driver error or timeout `connection_error_message` is set and an error is
returned. -/
def connect_to_default_db (driver : String → ConnectOutcome)
    (ui : DatabaseClientUI) : DatabaseClientUI × Except String Unit :=
  let cs := mysql_connection_string ui.connection_input "mysql"
  let outcome := driver cs
  if 3 < outcome.duration then
    ({ ui with connection_error_message := some "Connection timed out" },
     Except.error "Timed out while trying to connect")
  else
    match outcome.result with
    | Except.ok client =>
        ({ ui with connections := ui.connections ++ [client] }, Except.ok ())
    | Except.error e =>
        ({ ui with connection_error_message := some ("Connection error: " ++ e) },
         Except.error e)

/-- `str::trim`: drop leading and trailing whitespace (character-list model,
so that concrete queries evaluate in the kernel). -/
def trimChars (s : List Char) : List Char :=
  ((s.dropWhile Char.isWhitespace).reverse.dropWhile Char.isWhitespace).reverse

/-- `str::to_uppercase`, restricted to the ASCII casing the prefix test needs. -/
def upperChars (s : List Char) : List Char := s.map Char.toUpper

/-- `str::starts_with` on character lists. -/
def isPrefixOfChars : List Char → List Char → Bool
  | [], _ => true
  | _ :: _, [] => false
  | a :: as, b :: bs => a == b && isPrefixOfChars as bs

/-- `query.trim()` on `String`. -/
def strTrim (s : String) : String := String.mk (trimChars s.data)

/-- `query_trimmed.to_uppercase()` on `String`. -/
def strToUpper (s : String) : String := String.mk (upperChars s.data)

/-- `s.starts_with(pre)` on `String`. -/
def strStartsWith (s pre : String) : Bool := isPrefixOfChars pre.data s.data

/-- The row-normalization step of `execute_sql_query`: an object-shaped JSON
value becomes a `Row` of its fields, anything else is dropped (`filter_map`). -/
def rowOfJson : JsonValue → Option Row
  | JsonValue.obj fields => some fields
  | _ => none

/-- Whether a JSON value is object-shaped. -/
def jsonIsObject : JsonValue → Bool
  | JsonValue.obj _ => true
  | _ => false

/-- `execute_sql_query` (mysql.rs lines 11-50): requires a connection
(`connections.first()`), trims the query, classifies by case-insensitive
`SELECT` prefix; the read path normalizes rows and stores them in
`sql_query_result`, the write path discards rows and returns a fixed
success message. -/
def execute_sql_query (ui : DatabaseClientUI) (query : String) :
    DatabaseClientUI × Except String (List Row × Option String) :=
  match ui.connections.head? with
  | some client =>
      let query_trimmed := strTrim query
      let query_upper := strToUpper query_trimmed
      if strStartsWith query_upper "SELECT" then
        match client.queryResult query_trimmed with
        | Except.ok rows =>
            let hash_map_results := rows.filterMap rowOfJson
            ({ ui with sql_query_result := hash_map_results },
             Except.ok (hash_map_results, none))
        | Except.error e => (ui, Except.error e)
      else
        match client.execResult query_trimmed with
        | Except.ok _ =>
            (ui, Except.ok ([], some "Non-SELECT query executed successfully."))
        | Except.error e => (ui, Except.error e)
  | none => (ui, Except.error "No database connection available.")

/-- `describe_table` (mysql.rs lines 52-65): requires a connection and always
asks the backend for the schema; the session state is not consulted or
modified. -/
def describe_table (ui : DatabaseClientUI) (table_name : String) :
    Except String TableSchema :=
  match ui.connections.head? with
  | some client => client.describeResult table_name
  | none => Except.error "No database connection available."

/-- `fetch_databases` (mysql.rs lines 67-77). -/
def fetch_databases (ui : DatabaseClientUI) : Except String (List String) :=
  match ui.connections.head? with
  | some client => client.listDatabasesResult
  | none => Except.error "No database connection available."

/-- `fetch_tables` (mysql.rs lines 79-89). -/
def fetch_tables (ui : DatabaseClientUI) : Except String (List String) :=
  match ui.connections.head? with
  | some client => client.listTablesResult
  | none => Except.error "No database connection available."

/-- `update_tables` (mysql.rs lines 91-103). -/
def update_tables (ui : DatabaseClientUI) : DatabaseClientUI :=
  match fetch_tables ui with
  | Except.ok tables => { ui with tables := tables, selected_table := 0 }
  | Except.error _ => { ui with tables := [], selected_table := 0 }

/-- The key events the handlers consume (`crossterm::event::KeyCode`). -/
inductive KeyCode where
  | up : KeyCode
  | down : KeyCode
  | enter : KeyCode
  | esc : KeyCode
  | tab : KeyCode
  | backspace : KeyCode
  | char (c : Char) : KeyCode
  | other : KeyCode

/-- `cycle_focus` (handlers.rs lines 213-219). -/
def cycle_focus (ui : DatabaseClientUI) : DatabaseClientUI :=
  { ui with current_focus :=
      match ui.current_focus with
      | FocusedWidget.TablesList => FocusedWidget.SqlEditor
      | FocusedWidget.SqlEditor => FocusedWidget.QueryResult
      | FocusedWidget.QueryResult => FocusedWidget.TablesList }

/-- `move_selection_up` (handlers.rs lines 221-225). -/
def move_selection_up (ui : DatabaseClientUI) : DatabaseClientUI :=
  if ui.selected_table > 0 then
    { ui with selected_table := ui.selected_table - 1 }
  else ui

/-- `move_selection_down` (handlers.rs lines 227-231).  Note the source
compares `selected_table` against `self.databases.len().saturating_sub(1)`,
not against the table count. -/
def move_selection_down (ui : DatabaseClientUI) : DatabaseClientUI :=
  if ui.selected_table < ui.databases.length - 1 then
    { ui with selected_table := ui.selected_table + 1 }
  else ui

/-- `handle_db_type_selection_input` (handlers.rs lines 17-37); `none` models
`process::exit(0)` on the quit key. -/
def handle_db_type_selection_input (ui : DatabaseClientUI) (key : KeyCode) :
    Option DatabaseClientUI :=
  match key with
  | KeyCode.up =>
      some (if ui.selected_db_type > 0 then
              { ui with selected_db_type := ui.selected_db_type - 1 }
            else ui)
  | KeyCode.down =>
      some (if ui.selected_db_type < 2 then
              { ui with selected_db_type := ui.selected_db_type + 1 }
            else ui)
  | KeyCode.enter => some { ui with current_screen := ScreenState.ConnectionInput }
  | KeyCode.char c => if c = 'q' then none else some ui
  | _ => some ui

/-- `handle_database_selection_input` (handlers.rs lines 83-114): Up/Down move
`selected_db_type` over the database list, Enter connects to the selected
database, and every non-quit path ends with `update_tables`.  `none` models
`process::exit(0)`. -/
def handle_database_selection_input (driver : String → ConnectOutcome)
    (ui : DatabaseClientUI) (key : KeyCode) : Option DatabaseClientUI :=
  match key with
  | KeyCode.up =>
      some (update_tables
        (if ui.selected_db_type > 0 then
           { ui with selected_db_type := ui.selected_db_type - 1 }
         else ui))
  | KeyCode.down =>
      some (update_tables
        (if ¬ ui.databases.isEmpty ∧ ui.selected_db_type < ui.databases.length - 1 then
           { ui with selected_db_type := ui.selected_db_type + 1 }
         else ui))
  | KeyCode.enter =>
      some (update_tables
        (match ui.databases.get? ui.selected_db_type with
         | some db_name =>
             let step := connect_to_selected_db driver ui db_name
             match step.2 with
             | Except.ok _ => { step.1 with current_screen := ScreenState.TableView }
             | Except.error _ => step.1
         | none => ui))
  | KeyCode.char c => if c = 'q' then none else some (update_tables ui)
  | _ => some (update_tables ui)

/-- Insert into the `table_schemas` map (`HashMap::insert` on a map keyed by
table name: replaces the entry if the key is present, otherwise adds it). -/
def insertSchema (m : List (String × TableSchema)) (k : String)
    (v : TableSchema) : List (String × TableSchema) :=
  match m with
  | [] => [(k, v)]
  | p :: rest =>
      if p.1 = k then (k, v) :: rest else p :: insertSchema rest k v

/-- Lookup in the `table_schemas` map (`HashMap::get`). -/
def lookupSchema (m : List (String × TableSchema)) (k : String) :
    Option TableSchema :=
  match m with
  | [] => none
  | p :: rest => if p.1 = k then some p.2 else lookupSchema rest k

/-- `handle_table_view_input` (handlers.rs lines 116-174).  Rendering is a
pure projection and is dropped; all state mutations are kept.  The backend
dispatch (`describe_table`) follows the DbClient contract embodied by
mysql.rs. -/
def handle_table_view_input (ui : DatabaseClientUI) (key : KeyCode) :
    DatabaseClientUI :=
  match key with
  | KeyCode.tab => cycle_focus ui
  | KeyCode.up =>
      match ui.current_focus with
      | FocusedWidget.TablesList => move_selection_up ui
      | _ => ui
  | KeyCode.down =>
      match ui.current_focus with
      | FocusedWidget.TablesList => move_selection_down ui
      | _ => ui
  | KeyCode.enter =>
      match ui.current_focus with
      | FocusedWidget.TablesList =>
          if ui.tables.isEmpty then ui
          else if ui.selected_table < ui.tables.length then
            let selected_name := ui.tables.getD ui.selected_table ""
            if some ui.selected_table = ui.expanded_table then
              { ui with expanded_table := none }
            else
              match describe_table ui selected_name with
              | Except.ok table_schema =>
                  { ui with
                      table_schemas := insertSchema ui.table_schemas selected_name table_schema,
                      expanded_table := some ui.selected_table }
              | Except.error _ => ui
          else ui
      | _ => ui
  | _ => ui

/-! Concrete fixtures used by witnesses and counterexamples. -/

/-- A fully specified connection form. -/
def sampleInput : ConnectionInput :=
  { username := "u", password := "p", hostname := "h", port := "3306",
    current_field := InputField.Username }

/-- A backend client every call of which fails; connection identity is all
that matters for the slot claims. -/
def trivialClient : DbClient :=
  { queryResult := fun _ => Except.error "no query",
    execResult := fun _ => Except.error "no exec",
    listDatabasesResult := Except.error "no dbs",
    listTablesResult := Except.error "no tables",
    describeResult := fun _ => Except.error "no describe" }

/-- A fresh session state with an empty Connection Slot. -/
def baseUI : DatabaseClientUI :=
  { connections := [], connection_input := sampleInput,
    connection_error_message := none, databases := [], tables := [],
    selected_db_type := 0, selected_table := 0, expanded_table := none,
    table_schemas := [], sql_query_result := [], sql_editor_content := "",
    current_screen := ScreenState.DbTypeSelection,
    current_focus := FocusedWidget.TablesList }

/-- A session state whose slot already holds one connection. -/
def uiOne : DatabaseClientUI := { baseUI with connections := [trivialClient] }

/-- A driver whose connect resolves immediately and successfully. -/
def okDriver : String → ConnectOutcome :=
  fun _ => { duration := 0, result := Except.ok trivialClient }

/-- A driver whose connect fails immediately with a driver-level error. -/
def failDriver : String → ConnectOutcome :=
  fun _ => { duration := 0, result := Except.error "boom" }

/-- A driver whose connect would only resolve after 10 time units. -/
def slowDriver : String → ConnectOutcome :=
  fun _ => { duration := 10, result := Except.ok trivialClient }

/-- Table view with one table but two databases: exposes the clamp of
table selection against the database count. -/
def uiC3 : DatabaseClientUI :=
  { baseUI with
    tables := ["t1"], databases := ["d1", "d2"],
    selected_table := 0, current_screen := ScreenState.TableView,
    current_focus := FocusedWidget.TablesList }

/-- A client that answers one SELECT (with one object row and one stray
non-object row) and one INSERT. -/
def c4Client : DbClient :=
  { trivialClient with
    queryResult := fun q =>
      if q = "select * from t" then
        Except.ok [JsonValue.obj [("a", JsonValue.num 1)], JsonValue.str "junk"]
      else Except.error "unexpected query",
    execResult := fun q =>
      if q = "insert into t values (1)" then Except.ok ()
      else Except.error "unexpected statement" }

/-- A connected session for the query-classification witnesses. -/
def uiC4 : DatabaseClientUI := { baseUI with connections := [c4Client] }

/-- A minimal schema. -/
def schemaA : TableSchema := { table_name := "t", columns := [] }

/-- A different schema for the same table name. -/
def schemaB : TableSchema :=
  { table_name := "t",
    columns := [{ name := "id", data_type := "int", is_nullable := false,
                  default := none }] }

/-- A client that can describe tables named a and b. -/
def c5Client : DbClient :=
  { trivialClient with
    describeResult := fun t =>
      if t = "a" then Except.ok schemaA
      else if t = "b" then Except.ok schemaB
      else Except.error "missing table" }

/-- Table view with table index 0 selected and already expanded. -/
def uiC5collapse : DatabaseClientUI :=
  { baseUI with
    connections := [c5Client], tables := ["a", "b"],
    selected_table := 0, expanded_table := some 0,
    current_screen := ScreenState.TableView,
    current_focus := FocusedWidget.TablesList }

/-- Table view with table index 1 expanded and index 0 selected. -/
def uiC5expand : DatabaseClientUI :=
  { baseUI with
    connections := [c5Client], tables := ["a", "b"],
    selected_table := 0, expanded_table := some 1,
    current_screen := ScreenState.TableView,
    current_focus := FocusedWidget.TablesList }

/-- A client whose describe answer for table t differs from what the session
cache already stores for t. -/
def c9Client : DbClient :=
  { trivialClient with
    describeResult := fun t =>
      if t = "t" then Except.ok schemaB else Except.error "missing table" }

/-- A connected session whose schema cache already holds an entry for t that
disagrees with what the backend currently answers. -/
def uiC9 : DatabaseClientUI :=
  { baseUI with connections := [c9Client], table_schemas := [("t", schemaA)] }

/-- A session carrying an error message recorded by an earlier failed
connect attempt. -/
def uiOldMsg : DatabaseClientUI :=
  { baseUI with connection_error_message := some "earlier failure" }

/-! Helper lemmas shared by several claim proofs. -/

/-- Case equation: a selected-db connect that the driver accepts leaves
exactly the new client in the slot. -/
theorem connect_to_selected_db_ok (driver : String → ConnectOutcome)
    (ui : DatabaseClientUI) (db_name : String) (c : DbClient)
    (hr : (driver (mysql_connection_string ui.connection_input db_name)).result
        = Except.ok c) :
    connect_to_selected_db driver ui db_name
      = ({ ui with connections := [c] }, Except.ok ()) := by
  simp only [connect_to_selected_db, hr]
  rfl

/-- Case equation: a selected-db connect the driver rejects returns with the
slot already cleared and the driver's error propagated. -/
theorem connect_to_selected_db_error (driver : String → ConnectOutcome)
    (ui : DatabaseClientUI) (db_name : String) (e : String)
    (hr : (driver (mysql_connection_string ui.connection_input db_name)).result
        = Except.error e) :
    connect_to_selected_db driver ui db_name
      = ({ ui with connections := [] }, Except.error e) := by
  simp only [connect_to_selected_db, hr]

/-- Case equation: a default-db connect that outlives the 3-unit timeout
records the timeout message and fails, leaving the slot untouched. -/
theorem connect_to_default_db_timeout (driver : String → ConnectOutcome)
    (ui : DatabaseClientUI)
    (ht : 3 < (driver (mysql_connection_string ui.connection_input "mysql")).duration) :
    connect_to_default_db driver ui
      = ({ ui with connection_error_message := some "Connection timed out" },
         Except.error "Timed out while trying to connect") := by
  simp only [connect_to_default_db, if_pos ht]

/-- Case equation: a default-db connect that resolves in time and succeeds
appends the client to the slot without clearing it. -/
theorem connect_to_default_db_ok (driver : String → ConnectOutcome)
    (ui : DatabaseClientUI) (c : DbClient)
    (ht : ¬ 3 < (driver (mysql_connection_string ui.connection_input "mysql")).duration)
    (hr : (driver (mysql_connection_string ui.connection_input "mysql")).result
        = Except.ok c) :
    connect_to_default_db driver ui
      = ({ ui with connections := ui.connections ++ [c] }, Except.ok ()) := by
  simp only [connect_to_default_db, if_neg ht, hr]

/-- Case equation: a default-db connect that resolves in time but fails
records the driver error message and leaves the slot untouched. -/
theorem connect_to_default_db_driver_error (driver : String → ConnectOutcome)
    (ui : DatabaseClientUI) (e : String)
    (ht : ¬ 3 < (driver (mysql_connection_string ui.connection_input "mysql")).duration)
    (hr : (driver (mysql_connection_string ui.connection_input "mysql")).result
        = Except.error e) :
    connect_to_default_db driver ui
      = ({ ui with connection_error_message := some ("Connection error: " ++ e) },
         Except.error e) := by
  simp only [connect_to_default_db, if_neg ht, hr]

/-- Inserting a schema and looking it up by the same key yields the inserted
schema. -/
theorem lookupSchema_insertSchema (m : List (String × TableSchema))
    (k : String) (v : TableSchema) :
    lookupSchema (insertSchema m k v) k = some v := by
  induction m with
  | nil => simp [insertSchema, lookupSchema]
  | cons p rest ih =>
      by_cases hp : p.1 = k
      · simp [insertSchema, hp, lookupSchema]
      · simp [insertSchema, hp, lookupSchema, ih]

/-- A query or statement that returns an error leaves the whole session state
unchanged. -/
theorem execute_sql_query_error_frame (ui : DatabaseClientUI) (q e : String)
    (h : (execute_sql_query ui q).2 = Except.error e) :
    (execute_sql_query ui q).1 = ui := by
  simp only [execute_sql_query] at h ⊢
  cases hz : ui.connections.head? with
  | none => simp
  | some c =>
      simp only [hz] at h ⊢
      by_cases hs : strStartsWith (strToUpper (strTrim q)) "SELECT" = true
      · simp only [hs, if_true] at h ⊢
        cases hr : c.queryResult (strTrim q) with
        | ok rows => rw [hr] at h; simp at h
        | error e2 => simp [hr]
      · simp only [hs, if_false] at h ⊢
        cases hr : c.execResult (strTrim q) with
        | ok u => simp [hr]
        | error e2 => simp [hr]

/-- C1 counterexample: the claim says every successful connect clears any
previous connection, leaving exactly one. Starting from a slot that already
holds one connection, a successful connect_to_default_db leaves two
connections in the slot: its success arm pushes without clearing. -/
theorem C1_counterexample :
    (connect_to_default_db okDriver uiOne).2 = Except.ok () ∧
    (connect_to_default_db okDriver uiOne).1.connections.length = 2 :=
  ⟨rfl, rfl⟩

/-- C1 (amended): connect_to_selected_db clears the slot before installing
the new connection, so after its success exactly one connection is present;
connect_to_default_db appends without clearing, so after its success the slot
holds one more connection than before (exactly one only when it was empty). -/
theorem C1_connect_slot (driver : String → ConnectOutcome)
    (ui vi : DatabaseClientUI) (db_name : String)
    (h1 : (connect_to_selected_db driver ui db_name).2 = Except.ok ())
    (h2 : (connect_to_default_db driver vi).2 = Except.ok ()) :
    (connect_to_selected_db driver ui db_name).1.connections.length = 1 ∧
    (connect_to_default_db driver vi).1.connections.length
      = vi.connections.length + 1 := by
  constructor
  · cases hr : (driver (mysql_connection_string ui.connection_input db_name)).result with
    | ok c =>
        rw [connect_to_selected_db_ok driver ui db_name c hr]
        rfl
    | error e =>
        rw [connect_to_selected_db_error driver ui db_name e hr] at h1
        simp at h1
  · by_cases ht : 3 < (driver (mysql_connection_string vi.connection_input "mysql")).duration
    · rw [connect_to_default_db_timeout driver vi ht] at h2
      simp at h2
    · cases hr : (driver (mysql_connection_string vi.connection_input "mysql")).result with
      | ok c =>
          rw [connect_to_default_db_ok driver vi c ht hr]
          simp
      | error e =>
          rw [connect_to_default_db_driver_error driver vi e ht hr] at h2
          simp at h2

/-- C1 witness: at a successful driver, a selected-db connect from a
one-connection slot leaves one connection, and a default-db connect from an
empty slot leaves one more than before. -/
theorem C1_connect_slot_witness :
    (connect_to_selected_db okDriver uiOne "sales").1.connections.length = 1 ∧
    (connect_to_default_db okDriver baseUI).1.connections.length
      = baseUI.connections.length + 1 :=
  C1_connect_slot okDriver uiOne baseUI "sales" rfl rfl

/-- C2 counterexample: the claim says every failed connect leaves the slot
exactly as it was and records a display error. A failed
connect_to_selected_db from a slot holding one connection leaves the slot
empty (it cleared it before attempting) and records no error message. -/
theorem C2_counterexample :
    (connect_to_selected_db failDriver uiOne "sales").2 = Except.error "boom" ∧
    uiOne.connections.length = 1 ∧
    (connect_to_selected_db failDriver uiOne "sales").1.connections.length = 0 ∧
    (connect_to_selected_db failDriver uiOne "sales").1.connection_error_message
      = none :=
  ⟨rfl, rfl, rfl, rfl⟩

/-- C2 (amended): a failing connect_to_default_db leaves the slot untouched
and records a human-readable error message; a failing connect_to_selected_db
leaves the slot empty, having cleared it before the attempt, and records no
error message, only propagating the error to its caller. -/
theorem C2_connect_failure (driver : String → ConnectOutcome)
    (ui vi : DatabaseClientUI) (db_name : String) (e1 e2 : String)
    (h1 : (connect_to_default_db driver ui).2 = Except.error e1)
    (h2 : (connect_to_selected_db driver vi db_name).2 = Except.error e2) :
    ((connect_to_default_db driver ui).1.connections = ui.connections ∧
      ∃ msg, (connect_to_default_db driver ui).1.connection_error_message
        = some msg) ∧
    ((connect_to_selected_db driver vi db_name).1.connections = [] ∧
      (connect_to_selected_db driver vi db_name).1.connection_error_message
        = vi.connection_error_message) := by
  constructor
  · by_cases ht : 3 < (driver (mysql_connection_string ui.connection_input "mysql")).duration
    · rw [connect_to_default_db_timeout driver ui ht]
      exact ⟨rfl, ⟨"Connection timed out", rfl⟩⟩
    · cases hr : (driver (mysql_connection_string ui.connection_input "mysql")).result with
      | ok c =>
          rw [connect_to_default_db_ok driver ui c ht hr] at h1
          simp at h1
      | error e =>
          rw [connect_to_default_db_driver_error driver ui e ht hr]
          exact ⟨rfl, ⟨"Connection error: " ++ e, rfl⟩⟩
  · cases hr : (driver (mysql_connection_string vi.connection_input db_name)).result with
    | ok c =>
        rw [connect_to_selected_db_ok driver vi db_name c hr] at h2
        simp at h2
    | error e =>
        rw [connect_to_selected_db_error driver vi db_name e hr]
        exact ⟨rfl, rfl⟩

/-- C2 witness: at a driver that rejects immediately, both amended failure
behaviors hold from a one-connection slot. -/
theorem C2_connect_failure_witness :
    ((connect_to_default_db failDriver uiOne).1.connections = uiOne.connections ∧
      ∃ msg, (connect_to_default_db failDriver uiOne).1.connection_error_message
        = some msg) ∧
    ((connect_to_selected_db failDriver uiOne "sales").1.connections = [] ∧
      (connect_to_selected_db failDriver uiOne "sales").1.connection_error_message
        = uiOne.connection_error_message) :=
  C2_connect_failure failDriver uiOne uiOne "sales" "boom" "boom" rfl rfl

/-- C3: with focus on the tables list, one table and two databases, a Down
key moves the table-selection index from 0 to 1, leaving the valid range
[0, 0] of the one-element table list: move_selection_down clamps against the
database count instead of the table count. -/
theorem C3_selection_bug :
    uiC3.tables.length = 1 ∧
    uiC3.selected_table = 0 ∧
    (handle_table_view_input uiC3 KeyCode.down).selected_table = 1 ∧
    ¬ ((handle_table_view_input uiC3 KeyCode.down).selected_table
        ≤ uiC3.tables.length - 1) :=
  ⟨rfl, rfl, rfl, by decide⟩

/-- C4: execute_sql_query trims its input and classifies by case-insensitive
SELECT prefix; the read path returns the backend rows with every
object-shaped value turned into a Row and every non-object value silently
dropped (never an error), and the write path discards rows and returns the
fixed success message. -/
theorem C4_execute_sql_query_classification
    (ui : DatabaseClientUI) (client : DbClient) (q1 q2 : String)
    (rows : List JsonValue)
    (hc : ui.connections.head? = some client)
    (h1 : strStartsWith (strToUpper (strTrim q1)) "SELECT" = true)
    (hq : client.queryResult (strTrim q1) = Except.ok rows)
    (h2 : strStartsWith (strToUpper (strTrim q2)) "SELECT" = false)
    (he : client.execResult (strTrim q2) = Except.ok ()) :
    (execute_sql_query ui q1).2 = Except.ok (rows.filterMap rowOfJson, none) ∧
    (∀ fields, rowOfJson (JsonValue.obj fields) = some fields) ∧
    (∀ v, jsonIsObject v = false → rowOfJson v = none) ∧
    (execute_sql_query ui q2).2
      = Except.ok ([], some "Non-SELECT query executed successfully.") := by
  refine ⟨?_, fun fields => rfl, ?_, ?_⟩
  · simp [execute_sql_query, hc, h1, hq]
  · intro v hv
    cases v <;> simp_all [rowOfJson, jsonIsObject]
  · simp [execute_sql_query, hc, h2, he]

/-- C4 witness: a lowercase padded SELECT against a backend answering one
object row and one stray string row yields exactly the object row; an INSERT
yields no rows and the fixed message. -/
theorem C4_execute_sql_query_classification_witness :
    (execute_sql_query uiC4 " select * from t ").2
      = Except.ok ([[("a", JsonValue.num 1)]], none) ∧
    (execute_sql_query uiC4 "insert into t values (1)").2
      = Except.ok ([], some "Non-SELECT query executed successfully.") := by
  have h := C4_execute_sql_query_classification uiC4 c4Client
      " select * from t " "insert into t values (1)"
      [JsonValue.obj [("a", JsonValue.num 1)], JsonValue.str "junk"]
      rfl (by decide) rfl (by decide) rfl
  exact ⟨h.1, h.2.2.2⟩

/-- C5: in TableView with focus on the tables list and a valid selection,
Enter on the expanded table collapses it; Enter on a different table whose
describe succeeds caches its schema in the schema map and marks it as the
sole expanded table, unseating the previously expanded one. -/
theorem C5_table_view_enter
    (ui vi : DatabaseClientUI) (schema : TableSchema)
    (hf1 : ui.current_focus = FocusedWidget.TablesList)
    (h1 : ui.selected_table < ui.tables.length)
    (he1 : ui.expanded_table = some ui.selected_table)
    (hf2 : vi.current_focus = FocusedWidget.TablesList)
    (h2 : vi.selected_table < vi.tables.length)
    (he2 : vi.expanded_table ≠ some vi.selected_table)
    (hd : describe_table vi (vi.tables.getD vi.selected_table "")
        = Except.ok schema) :
    (handle_table_view_input ui KeyCode.enter).expanded_table = none ∧
    (handle_table_view_input vi KeyCode.enter).expanded_table
      = some vi.selected_table ∧
    (handle_table_view_input vi KeyCode.enter).expanded_table
      ≠ vi.expanded_table ∧
    lookupSchema (handle_table_view_input vi KeyCode.enter).table_schemas
        (vi.tables.getD vi.selected_table "") = some schema := by
  have hne1 : ui.tables.isEmpty = false := by
    cases hts : ui.tables with
    | nil => rw [hts] at h1; simp at h1
    | cons a l => rfl
  have hne2 : vi.tables.isEmpty = false := by
    cases hts : vi.tables with
    | nil => rw [hts] at h2; simp at h2
    | cons a l => rfl
  have e1 : handle_table_view_input ui KeyCode.enter
      = { ui with expanded_table := none } := by
    simp only [handle_table_view_input, hf1, hne1, Bool.false_eq_true, if_false,
      if_pos h1]
    rw [if_pos he1.symm]
  have e2 : handle_table_view_input vi KeyCode.enter
      = { vi with
            table_schemas :=
              insertSchema vi.table_schemas (vi.tables.getD vi.selected_table "")
                schema,
            expanded_table := some vi.selected_table } := by
    simp only [handle_table_view_input, hf2, hne2, Bool.false_eq_true, if_false,
      if_pos h2]
    rw [if_neg (fun hh => he2 hh.symm), hd]
  refine ⟨?_, ?_, ?_, ?_⟩
  · rw [e1]
  · rw [e2]
  · rw [e2]
    exact fun hh => he2 hh.symm
  · rw [e2]
    exact lookupSchema_insertSchema vi.table_schemas
      (vi.tables.getD vi.selected_table "") schema

/-- C5 witness: with tables a and b, Enter with table 0 selected and
expanded collapses it; Enter with table 0 selected while table 1 is expanded
expands table 0 and caches schema a. -/
theorem C5_table_view_enter_witness :
    (handle_table_view_input uiC5collapse KeyCode.enter).expanded_table
      = none ∧
    (handle_table_view_input uiC5expand KeyCode.enter).expanded_table
      = some 0 ∧
    lookupSchema (handle_table_view_input uiC5expand KeyCode.enter).table_schemas
        "a" = some schemaA := by
  have h := C5_table_view_enter uiC5collapse uiC5expand schemaA rfl (by decide)
      rfl rfl (by decide) (by decide) rfl
  exact ⟨h.1, h.2.1, h.2.2.2⟩

/-- C6: with an empty Connection Slot, query execution, describe, database
listing and table listing each return the no-connection error; all four are
total functions of the state, so none can panic. -/
theorem C6_no_connection (ui : DatabaseClientUI) (q t : String)
    (h : ui.connections = []) :
    (execute_sql_query ui q).2
      = Except.error "No database connection available." ∧
    describe_table ui t = Except.error "No database connection available." ∧
    fetch_databases ui = Except.error "No database connection available." ∧
    fetch_tables ui = Except.error "No database connection available." := by
  refine ⟨?_, ?_, ?_, ?_⟩ <;>
    simp [execute_sql_query, describe_table, fetch_databases, fetch_tables, h]

/-- C6 witness: the four operations on a fresh session with no connection. -/
theorem C6_no_connection_witness :
    (execute_sql_query baseUI "select 1").2
      = Except.error "No database connection available." ∧
    describe_table baseUI "t" = Except.error "No database connection available." ∧
    fetch_databases baseUI = Except.error "No database connection available." ∧
    fetch_tables baseUI = Except.error "No database connection available." :=
  C6_no_connection baseUI "select 1" "t" rfl

/-- C7: a successful SELECT stores the normalized rows in the session's
sql_query_result cache, and every query or statement that returns an error
leaves the previous cached result unchanged. -/
theorem C7_query_result_cache (ui : DatabaseClientUI) (client : DbClient)
    (q : String) (rows : List JsonValue)
    (hc : ui.connections.head? = some client)
    (h1 : strStartsWith (strToUpper (strTrim q)) "SELECT" = true)
    (hq : client.queryResult (strTrim q) = Except.ok rows) :
    (execute_sql_query ui q).1.sql_query_result = rows.filterMap rowOfJson ∧
    ∀ (vi : DatabaseClientUI) (q2 e : String),
      (execute_sql_query vi q2).2 = Except.error e →
      (execute_sql_query vi q2).1.sql_query_result = vi.sql_query_result := by
  constructor
  · simp [execute_sql_query, hc, h1, hq]
  · intro vi q2 e h
    rw [execute_sql_query_error_frame vi q2 e h]

/-- C7 witness: after the successful SELECT of the C4 fixture, the cache
holds exactly the one normalized row. -/
theorem C7_query_result_cache_witness :
    (execute_sql_query uiC4 " select * from t ").1.sql_query_result
      = [[("a", JsonValue.num 1)]] := by
  have h := C7_query_result_cache uiC4 c4Client " select * from t "
      [JsonValue.obj [("a", JsonValue.num 1)], JsonValue.str "junk"]
      rfl (by decide) rfl
  exact h.1

/-- C8: a default-db connect whose driver outlives the fixed 3-unit timeout
fails with the timeout error and records the timeout message; one that
resolves in time follows the driver verbatim; a selected-db connect follows
the driver verbatim whatever its duration, targeting the connection string
of the given database name. -/
theorem C8_timeout (driver : String → ConnectOutcome) (ui : DatabaseClientUI)
    (ht : 3 < (driver (mysql_connection_string ui.connection_input "mysql")).duration) :
    (connect_to_default_db driver ui).2
      = Except.error "Timed out while trying to connect" ∧
    (connect_to_default_db driver ui).1.connection_error_message
      = some "Connection timed out" ∧
    (∀ (d : String → ConnectOutcome) (vi : DatabaseClientUI),
      ¬ 3 < (d (mysql_connection_string vi.connection_input "mysql")).duration →
      (connect_to_default_db d vi).2
        = Except.map (fun _ => ())
            (d (mysql_connection_string vi.connection_input "mysql")).result) ∧
    ∀ (d : String → ConnectOutcome) (vi : DatabaseClientUI) (name : String),
      (connect_to_selected_db d vi name).2
        = Except.map (fun _ => ())
            (d (mysql_connection_string vi.connection_input name)).result := by
  refine ⟨?_, ?_, ?_, ?_⟩
  · rw [connect_to_default_db_timeout driver ui ht]
  · rw [connect_to_default_db_timeout driver ui ht]
  · intro d vi hnd
    cases hr : (d (mysql_connection_string vi.connection_input "mysql")).result with
    | ok c =>
        rw [connect_to_default_db_ok d vi c hnd hr]
        rfl
    | error e =>
        rw [connect_to_default_db_driver_error d vi e hnd hr]
        rfl
  · intro d vi name
    cases hr : (d (mysql_connection_string vi.connection_input name)).result with
    | ok c =>
        rw [connect_to_selected_db_ok d vi name c hr]
        rfl
    | error e =>
        rw [connect_to_selected_db_error d vi name e hr]
        rfl

/-- C8 witness: a driver that needs 10 units trips the timeout of the
default-db connect. -/
theorem C8_timeout_witness :
    (connect_to_default_db slowDriver baseUI).2
      = Except.error "Timed out while trying to connect" ∧
    (connect_to_default_db slowDriver baseUI).1.connection_error_message
      = some "Connection timed out" := by
  have h := C8_timeout slowDriver baseUI (by decide)
  exact ⟨h.1, h.2.1⟩

/-- C9 counterexample: the claim says a second describe is served from the
table_schemas cache without re-querying the backend. With a cache already
holding schema A for table t while the backend answers schema B, describe
returns schema B: the result comes from the backend, not the cache, so the
backend is queried on every describe. -/
theorem C9_counterexample :
    lookupSchema uiC9.table_schemas "t" = some schemaA ∧
    describe_table uiC9 "t" = Except.ok schemaB ∧
    schemaA ≠ schemaB :=
  ⟨rfl, rfl, by decide⟩

/-- C9 (amended): describe_table always answers with the backend's current
response, whatever the table_schemas cache contains; two describes of the
same table against the same connection therefore agree because the backend
oracle is fixed per connection, not because the cache is read. -/
theorem C9_describe_backend (ui : DatabaseClientUI) (client : DbClient)
    (name : String) (hc : ui.connections.head? = some client) :
    describe_table ui name = client.describeResult name ∧
    ∀ (m : List (String × TableSchema)),
      describe_table { ui with table_schemas := m } name
        = client.describeResult name := by
  constructor
  · simp [describe_table, hc]
  · intro m
    simp [describe_table, hc]

/-- C9 witness: the fixture session serves describes of t straight from the
backend, for its actual cache and for any replacement cache. -/
theorem C9_describe_backend_witness :
    describe_table uiC9 "t" = c9Client.describeResult "t" ∧
    ∀ (m : List (String × TableSchema)),
      describe_table { uiC9 with table_schemas := m } "t"
        = c9Client.describeResult "t" :=
  C9_describe_backend uiC9 c9Client "t" rfl

/-- C10: the success arm of connect_to_default_db never writes
connection_error_message, so a message recorded by an earlier failed attempt
survives a later successful connect. -/
theorem C10_success_preserves_message (driver : String → ConnectOutcome)
    (ui : DatabaseClientUI)
    (h : (connect_to_default_db driver ui).2 = Except.ok ()) :
    (connect_to_default_db driver ui).1.connection_error_message
      = ui.connection_error_message := by
  by_cases ht : 3 < (driver (mysql_connection_string ui.connection_input "mysql")).duration
  · rw [connect_to_default_db_timeout driver ui ht] at h
    simp at h
  · cases hr : (driver (mysql_connection_string ui.connection_input "mysql")).result with
    | ok c => rw [connect_to_default_db_ok driver ui c ht hr]
    | error e =>
        rw [connect_to_default_db_driver_error driver ui e ht hr] at h
        simp at h

/-- C10 witness: a successful connect after an earlier recorded failure
leaves the old message in place. -/
theorem C10_success_preserves_message_witness :
    (connect_to_default_db okDriver uiOldMsg).1.connection_error_message
      = uiOldMsg.connection_error_message :=
  C10_success_preserves_message okDriver uiOldMsg rfl
